import Mathlib

/-
Verification of the vehicle physics core of the GrandTheftLux repository
(`src/game/engine/core/GameObject.ts`, PhysicsEngine section, together with
`src/game/vehicles/Vehicle.ts` and `VehicleController.ts`).

The TypeScript code is shallowly embedded: JavaScript numbers are modelled as
real numbers, `THREE.Vector3` / `THREE.Quaternion` as records of reals with the
polynomial formulas of the three.js sources, and JavaScript `Map` objects as
insertion-ordered association lists (`Map.set` replaces in place, `Map.delete`
removes, iteration follows insertion order).  In-place mutation of a body that
is stored in the body map is modelled by writing the updated record back under
the same key.  Division by zero follows Lean's `x / 0 = 0` convention; every
place where the claims are settled is arranged so that this convention is not
load-bearing.  The whole development is noncomputable because the reals are.
-/

noncomputable section

namespace GTL

/-! ## Vector and quaternion math (three.js semantics) -/

/-- A `THREE.Vector3`: three real components. -/
structure Vec3 where
  x : ℝ
  y : ℝ
  z : ℝ

namespace Vec3

def add (a b : Vec3) : Vec3 := ⟨a.x + b.x, a.y + b.y, a.z + b.z⟩

def sub (a b : Vec3) : Vec3 := ⟨a.x - b.x, a.y - b.y, a.z - b.z⟩

/-- Source `multiplyScalar`. -/
def smul (c : ℝ) (v : Vec3) : Vec3 := ⟨c * v.x, c * v.y, c * v.z⟩

def dot (a b : Vec3) : ℝ := a.x * b.x + a.y * b.y + a.z * b.z

def cross (a b : Vec3) : Vec3 :=
  ⟨a.y * b.z - a.z * b.y, a.z * b.x - a.x * b.z, a.x * b.y - a.y * b.x⟩

/-- Source `length()`: the Euclidean norm. -/
def length (v : Vec3) : ℝ := Real.sqrt (dot v v)

/-- Source `negate()`. -/
def neg (v : Vec3) : Vec3 := ⟨-v.x, -v.y, -v.z⟩

/-- Source `normalize()`: three.js divides by `length() || 1`, so the zero vector is
returned unchanged instead of producing a division error. -/
def normalize (v : Vec3) : Vec3 :=
  if length v = 0 then v else smul (1 / length v) v

def zero : Vec3 := ⟨0, 0, 0⟩

end Vec3

/-- A `THREE.Quaternion`. -/
structure Quat where
  x : ℝ
  y : ℝ
  z : ℝ
  w : ℝ

namespace Quat

/-- Source `Quaternion.multiply` (Hamilton product, `this * q`). -/
def mul (a b : Quat) : Quat :=
  ⟨a.x * b.w + a.w * b.x + a.y * b.z - a.z * b.y,
   a.y * b.w + a.w * b.y + a.z * b.x - a.x * b.z,
   a.z * b.w + a.w * b.z + a.x * b.y - a.y * b.x,
   a.w * b.w - a.x * b.x - a.y * b.y - a.z * b.z⟩

def identity : Quat := ⟨0, 0, 0, 1⟩

/-- Source `Quaternion.setFromAxisAngle(axis, angle)`. -/
def ofAxisAngle (axis : Vec3) (angle : ℝ) : Quat :=
  ⟨axis.x * Real.sin (angle / 2), axis.y * Real.sin (angle / 2),
   axis.z * Real.sin (angle / 2), Real.cos (angle / 2)⟩

/-- Source `Quaternion.setFromEuler` with the default XYZ order. -/
def ofEuler (e : Vec3) : Quat :=
  let c1 := Real.cos (e.x / 2); let c2 := Real.cos (e.y / 2); let c3 := Real.cos (e.z / 2)
  let s1 := Real.sin (e.x / 2); let s2 := Real.sin (e.y / 2); let s3 := Real.sin (e.z / 2)
  ⟨s1 * c2 * c3 + c1 * s2 * s3,
   c1 * s2 * c3 - s1 * c2 * s3,
   c1 * c2 * s3 + s1 * s2 * c3,
   c1 * c2 * c3 - s1 * s2 * s3⟩

end Quat

/-- Source `Vector3.applyQuaternion`: `t = 2 (q.xyz × v)`, `v + w t + q.xyz × t`. -/
def Vec3.applyQuaternion (v : Vec3) (q : Quat) : Vec3 :=
  let qv : Vec3 := ⟨q.x, q.y, q.z⟩
  let t := Vec3.smul 2 (Vec3.cross qv v)
  Vec3.add (Vec3.add v (Vec3.smul q.w t)) (Vec3.cross qv t)

/-- Source `MathUtils.clamp(value, min, max) = Math.max(min, Math.min(max, value))`. -/
def clampR (v lo hi : ℝ) : ℝ := max lo (min hi v)

/-- Source `Math.atan2`. -/
def atan2 (y x : ℝ) : ℝ :=
  if 0 < x then Real.arctan (y / x)
  else if x < 0 then
    (if 0 ≤ y then Real.arctan (y / x) + Real.pi else Real.arctan (y / x) - Real.pi)
  else if 0 < y then Real.pi / 2
  else if y < 0 then -(Real.pi / 2)
  else 0

/-- Source `Euler.setFromQuaternion` with the default XYZ order (going through the
rotation-matrix entries exactly as `THREE.Euler.setFromRotationMatrix` does,
including the `0.9999999` gimbal-lock threshold). -/
def eulerFromQuat (q : Quat) : Vec3 :=
  let m11 := 1 - 2 * (q.y * q.y + q.z * q.z)
  let m12 := 2 * (q.x * q.y - q.w * q.z)
  let m13 := 2 * (q.x * q.z + q.w * q.y)
  let m22 := 1 - 2 * (q.x * q.x + q.z * q.z)
  let m23 := 2 * (q.y * q.z - q.w * q.x)
  let m32 := 2 * (q.y * q.z + q.w * q.x)
  let m33 := 1 - 2 * (q.x * q.x + q.y * q.y)
  let ey := Real.arcsin (clampR m13 (-1) 1)
  if |m13| < 0.9999999 then ⟨atan2 (-m23) m33, ey, atan2 (-m12) m11⟩
  else ⟨atan2 m32 m22, ey, 0⟩

/-! ## JavaScript `Map` objects as insertion-ordered association lists -/

namespace JsMap

variable {α : Type}

/-- Source `Map.get`. -/
def get : List (String × α) → String → Option α
  | [], _ => none
  | (k, v) :: rest, key => if k = key then some v else get rest key

/-- Source `Map.set`: replaces the value in place when the key is present, otherwise
appends at the end (JavaScript insertion-order semantics). -/
def set : List (String × α) → String → α → List (String × α)
  | [], key, v => [(key, v)]
  | (k, w) :: rest, key, v =>
      if k = key then (k, v) :: rest else (k, w) :: set rest key v

/-- Source `Map.delete`. -/
def del : List (String × α) → String → List (String × α)
  | [], _ => []
  | (k, w) :: rest, key =>
      if k = key then del rest key else (k, w) :: del rest key

def keys (m : List (String × α)) : List String := m.map Prod.fst

end JsMap

/-! ## The fixed-timestep accumulator loop

`PhysicsEngine.update` runs `while (accumulator >= timestep) { step(timestep);
accumulator -= timestep }`.  `loopFix ts f a acc` is that loop with the mutated
world state `a` threaded through `f`; for `ts ≤ 0` the source loop would never
terminate, so the model simply stops (all claims assume a positive timestep). -/

def loopFix {α : Type} (ts : ℝ) (f : α → α) (a : α) (acc : ℝ) : α × ℝ :=
  if h : 0 < ts ∧ ts ≤ acc then loopFix ts f (f a) (acc - ts)
  else (a, acc)
termination_by (Int.floor (acc / ts)).toNat
decreasing_by
  obtain ⟨h1, h2⟩ := h
  have hne : ts ≠ 0 := ne_of_gt h1
  have hdiv : (acc - ts) / ts = acc / ts - 1 := by
    rw [sub_div, div_self hne]
  have hone : (1 : ℝ) ≤ acc / ts := (le_div_iff₀ h1).mpr (by linarith)
  have hfl : (1 : ℤ) ≤ Int.floor (acc / ts) := by
    exact_mod_cast Int.le_floor.mpr (by exact_mod_cast hone)
  have : Int.floor ((acc - ts) / ts) = Int.floor (acc / ts) - 1 := by
    rw [hdiv, Int.floor_sub_one]
  omega

/-! ## Data model (`PhysicsBody`, shapes, materials, vehicles)

Fields of the TypeScript interfaces that the physics core never reads
(`userData`, string-typed labels, transmission/tire data, fuel, damage, ...)
are omitted; everything the `PhysicsEngine` methods touch is present. -/

/-- Source `PhysicsMaterial`. -/
structure PhysicsMaterial where
  friction : ℝ
  restitution : ℝ
  density : ℝ

/-- The `type` tag of a `CollisionShape`. -/
inductive ShapeKind
  | box
  | cylinder
  | sphere
  | mesh

/-- Source `CollisionShape`. -/
structure CollisionShape where
  kind : ShapeKind
  size : Vec3
  offset : Vec3
  material : PhysicsMaterial

/-- The `type` tag of a `PhysicsBody`. -/
inductive BodyKind
  | vehicle
  | staticBody
  | dynamicBody

/-- Source `PhysicsBody`. -/
structure PhysicsBody where
  id : String
  kind : BodyKind
  mass : ℝ
  position : Vec3
  velocity : Vec3
  rotation : Quat
  angularVelocity : Vec3
  inertia : Vec3
  centerOfMass : Vec3
  collisionShape : CollisionShape
  isActive : Bool
  isSleeping : Bool

/-- Source `ContactPoint`. -/
structure ContactPoint where
  point : Vec3
  normal : Vec3
  penetration : ℝ
  friction : ℝ
  restitution : ℝ

/-- A `CollisionPair`.  The source stores references to the two body objects;
since both references come out of the engine's body map, the pair is modelled
by the two registry keys plus the contact snapshot. -/
structure CollisionPair where
  bodyA : String
  bodyB : String
  contact : ContactPoint

/-- The `engine` entry of `VehicleData` (only `power` is read by the core). -/
structure EngineData where
  power : ℝ
  torque : ℝ
  redline : ℝ

structure Dimensions where
  length : ℝ
  width : ℝ
  height : ℝ

/-- The `suspension` entry of `VehicleData`. -/
structure SuspensionData where
  stiffness : ℝ
  damping : ℝ
  rideHeight : ℝ

/-- Source `VehicleData` restricted to the fields the physics core reads. -/
structure VehicleData where
  mass : ℝ
  maxSpeed : ℝ
  dimensions : Dimensions
  engine : EngineData
  suspension : SuspensionData

/-- Source `VehicleControls` (`clutch`/`gear`/`horn`/... are never read here). -/
structure VehicleControls where
  throttle : ℝ
  brake : ℝ
  steering : ℝ
  handbrake : Bool

/-- A partial controls record, the `Partial<VehicleControls>` argument of
`VehicleController.setControls`. -/
structure PartialControls where
  throttle : Option ℝ
  brake : Option ℝ
  steering : Option ℝ
  handbrake : Option Bool

/-- Source `VehicleController.setControls`: the object spread
`{ ...this.controls, ...controls }` — supplied fields replace the stored ones
verbatim, absent fields keep their old values.  No clamping occurs. -/
def VehicleController.setControls (cur : VehicleControls) (p : PartialControls) :
    VehicleControls :=
  { throttle := p.throttle.getD cur.throttle
    brake := p.brake.getD cur.brake
    steering := p.steering.getD cur.steering
    handbrake := p.handbrake.getD cur.handbrake }

/-- Source `VehicleController.getControls` returns a field-by-field copy. -/
def VehicleController.getControls (cur : VehicleControls) : VehicleControls :=
  { throttle := cur.throttle, brake := cur.brake
    steering := cur.steering, handbrake := cur.handbrake }

/-- The `Vehicle` object as seen by the `PhysicsEngine` (`getId`, `getData`,
`getPosition`, `getRotation` (Euler), `getControls`, and the
`setPosition`/`setRotation`/`setVelocity` write-backs). -/
structure Vehicle where
  id : String
  position : Vec3
  rotation : Vec3
  velocity : Vec3
  data : VehicleData
  controls : VehicleControls

/-! ## PhysicsEngine -/

/-- The `PhysicsEngine` state: configuration plus the two registries.  The
`iterations`/`broadphase`/`solver`/`maxContacts` configuration fields are
declared in the source but never read by the simulation loop and are omitted.
JavaScript object identity of map values is modelled by structural equality. -/
structure PhysicsEngine where
  gravity : Vec3
  timestep : ℝ
  accumulator : ℝ
  bodies : List (String × PhysicsBody)
  vehicles : List (String × Vehicle)
  collisionPairs : List CollisionPair
  enableSleeping : Bool
  sleepThreshold : ℝ

namespace PhysicsEngine

/-- Source `calculateInertia`. -/
def calculateInertia (mass : ℝ) (d : Dimensions) : Vec3 :=
  ⟨mass / 12 * (d.height * d.height + d.length * d.length),
   mass / 12 * (d.width * d.width + d.length * d.length),
   mass / 12 * (d.width * d.width + d.height * d.height)⟩

/-- Source `calculateWheelInertia`. -/
def calculateWheelInertia (mass radius width : ℝ) : Vec3 :=
  ⟨mass / 12 * (3 * radius * radius + width * width),
   mass / 2 * (radius * radius),
   mass / 12 * (3 * radius * radius + width * width)⟩

/-- Source `createVehiclePhysicsBody`: a fresh body built from the vehicle's current
data — position and rotation re-read from the vehicle, velocity and angular
velocity zero vectors. -/
def createVehiclePhysicsBody (v : Vehicle) : PhysicsBody :=
  { id := v.id
    kind := BodyKind.vehicle
    mass := v.data.mass
    position := v.position
    velocity := Vec3.zero
    rotation := Quat.ofEuler v.rotation
    angularVelocity := Vec3.zero
    inertia := calculateInertia v.data.mass v.data.dimensions
    centerOfMass := ⟨0, v.data.dimensions.height * 0.4, 0⟩
    collisionShape :=
      { kind := ShapeKind.box
        size := ⟨v.data.dimensions.width, v.data.dimensions.height, v.data.dimensions.length⟩
        offset := Vec3.zero
        material := { friction := 0.8, restitution := 0.3, density := 1000 } }
    isActive := true
    isSleeping := false }

/-- The wheel body ids `vehicleId_wheel_0` … `vehicleId_wheel_3`. -/
def wheelId (id : String) (i : ℕ) : String := id ++ "_wheel_" ++ toString i

/-- The four local wheel positions of `addVehicleCollisionShapes`. -/
def wheelPositions (d : Dimensions) : List Vec3 :=
  let wheelRadius := d.height * 0.15
  [⟨-(d.width * 0.35), wheelRadius, -(d.length * 0.35)⟩,
   ⟨d.width * 0.35, wheelRadius, -(d.length * 0.35)⟩,
   ⟨-(d.width * 0.35), wheelRadius, d.length * 0.35⟩,
   ⟨d.width * 0.35, wheelRadius, d.length * 0.35⟩]

/-- The wheel body created for index `i` at local position `p`. -/
def mkWheelBody (v : Vehicle) (body : PhysicsBody) (i : ℕ) (p : Vec3) : PhysicsBody :=
  let d := v.data.dimensions
  let wheelRadius := d.height * 0.15
  let wheelWidth := d.width * 0.1
  { id := wheelId body.id i
    kind := BodyKind.dynamicBody
    mass := v.data.mass * 0.05
    position := Vec3.add body.position p
    velocity := Vec3.zero
    rotation := Quat.identity
    angularVelocity := Vec3.zero
    inertia := calculateWheelInertia (v.data.mass * 0.05) wheelRadius wheelWidth
    centerOfMass := Vec3.zero
    collisionShape :=
      { kind := ShapeKind.cylinder
        size := ⟨wheelRadius * 2, wheelWidth, wheelRadius * 2⟩
        offset := Vec3.zero
        material := { friction := 0.9, restitution := 0.1, density := 800 } }
    isActive := true
    isSleeping := false }

/-- Source `addVehicleCollisionShapes`: registers the four wheel sub-bodies (the
`bodyShape` local in the source is dead code and has no effect on the map). -/
def addVehicleCollisionShapes (v : Vehicle) (body : PhysicsBody)
    (bodies : List (String × PhysicsBody)) : List (String × PhysicsBody) :=
  ((wheelPositions v.data.dimensions).enum).foldl
    (fun bs ip => JsMap.set bs (wheelId body.id ip.1) (mkWheelBody v body ip.1 ip.2))
    bodies

/-- Source `addVehicle`. -/
def addVehicle (e : PhysicsEngine) (v : Vehicle) : PhysicsEngine :=
  let physicsBody := createVehiclePhysicsBody v
  { e with
    bodies := addVehicleCollisionShapes v physicsBody
      (JsMap.set e.bodies physicsBody.id physicsBody)
    vehicles := JsMap.set e.vehicles physicsBody.id v }

instance : DecidableEq Vehicle := Classical.decEq _

/-- Source `getVehicleId`: linear scan of the vehicles map for the entry holding this
vehicle (reference equality in JavaScript, structural equality here). -/
def getVehicleId (vehicles : List (String × Vehicle)) (v : Vehicle) : Option String :=
  match vehicles with
  | [] => none
  | (id, w) :: rest => if w = v then some id else getVehicleId rest v

/-- Source `removeVehicle`: deletes the entry found by `getVehicleId` from both maps;
when the vehicle is not registered nothing happens. -/
def removeVehicle (e : PhysicsEngine) (v : Vehicle) : PhysicsEngine :=
  match getVehicleId e.vehicles v with
  | some vehicleId =>
      { e with bodies := JsMap.del e.bodies vehicleId
               vehicles := JsMap.del e.vehicles vehicleId }
  | none => e

/-! ### Broadphase and narrowphase -/

/-- The broadphase cell of a position (`cellSize = 10`; the `${x},${z}` string
key is injective on integer pairs, so the key is modelled as the pair). -/
def cellKey (p : Vec3) : Int × Int :=
  (Int.floor (p.x / 10), Int.floor (p.z / 10))

/-- Append a body to its cell's list, creating the cell at the end of the grid
map when absent (JavaScript `Map` insertion order). -/
def gridAdd (g : List ((Int × Int) × List (String × PhysicsBody)))
    (key : Int × Int) (kb : String × PhysicsBody) :
    List ((Int × Int) × List (String × PhysicsBody)) :=
  match g with
  | [] => [(key, [kb])]
  | (k, l) :: rest =>
      if k = key then (k, l ++ [kb]) :: rest else (k, l) :: gridAdd rest key kb

/-- Source `updateBroadphase`: rebuilds the grid from scratch, skipping inactive
bodies. -/
def updateBroadphase (bodies : List (String × PhysicsBody)) :
    List ((Int × Int) × List (String × PhysicsBody)) :=
  bodies.foldl
    (fun g kb => if kb.2.isActive then gridAdd g (cellKey kb.2.position) kb else g) []

/-- Source `getAABB`. -/
def getAABB (body : PhysicsBody) : Vec3 × Vec3 :=
  let size := body.collisionShape.size
  let offset := body.collisionShape.offset
  (Vec3.sub (Vec3.add body.position offset) (Vec3.smul 0.5 size),
   Vec3.add (Vec3.add body.position offset) (Vec3.smul 0.5 size))

/-- Source `checkCollision`: inclusive AABB overlap test. -/
def checkCollision (a b : PhysicsBody) : Prop :=
  let (amin, amax) := getAABB a
  let (bmin, bmax) := getAABB b
  amin.x ≤ bmax.x ∧ amax.x ≥ bmin.x ∧
  amin.y ≤ bmax.y ∧ amax.y ≥ bmin.y ∧
  amin.z ≤ bmax.z ∧ amax.z ≥ bmin.z

instance (a b : PhysicsBody) : Decidable (checkCollision a b) := by
  unfold checkCollision
  exact inferInstanceAs (Decidable (_ ∧ _))

/-- Source `generateContact`. -/
def generateContact (a b : PhysicsBody) : Option ContactPoint :=
  let direction := Vec3.sub b.position a.position
  let distance := direction.length
  if distance = 0 then none
  else
    let normal := direction.normalize
    let penetration :=
      (a.collisionShape.size.length + b.collisionShape.size.length) / 2 - distance
    if penetration ≤ 0 then none
    else some
      { point := Vec3.add a.position (Vec3.smul (a.collisionShape.size.length / 2) normal)
        normal := normal
        penetration := penetration
        friction := min a.collisionShape.material.friction b.collisionShape.material.friction
        restitution :=
          min a.collisionShape.material.restitution b.collisionShape.material.restitution }

/-- All `i < j` index pairs of one cell, in the source's nested-loop order. -/
def allPairs {β : Type} : List β → List (β × β)
  | [] => []
  | x :: xs => xs.map (fun y => (x, y)) ++ allPairs xs

/-- Source `detectCollisions`: every same-cell pair that passes the AABB test and
yields a contact, in grid insertion order. -/
def detectCollisions (grid : List ((Int × Int) × List (String × PhysicsBody))) :
    List CollisionPair :=
  grid.foldl
    (fun acc cell =>
      acc ++ (allPairs cell.2).filterMap
        (fun ab =>
          if checkCollision ab.1.2 ab.2.2 then
            (generateContact ab.1.2 ab.2.2).map
              (fun c => { bodyA := ab.1.1, bodyB := ab.2.1, contact := c })
          else none))
    []

/-- The collision pairs one `step` works on. -/
def detectedPairs (e : PhysicsEngine) : List CollisionPair :=
  detectCollisions (updateBroadphase e.bodies)

/-! ### Constraint solver -/

/-- Source `solveContact` acting on the two body records (the `deltaTime` parameter of
the source is unused there and omitted).  Returns the updated `(bodyA, bodyB)`. -/
def solveContact (a b : PhysicsBody) (c : ContactPoint) : PhysicsBody × PhysicsBody :=
  let relativeVelocity := Vec3.sub b.velocity a.velocity
  let normalVelocity := Vec3.dot relativeVelocity c.normal
  if 0 < normalVelocity then (a, b)
  else
    let j := -(1 + c.restitution) * normalVelocity
    let impulse := Vec3.smul j c.normal
    let a1 := if 0 < a.mass
      then { a with velocity := Vec3.sub a.velocity (Vec3.smul (1 / a.mass) impulse) }
      else a
    let b1 := if 0 < b.mass
      then { b with velocity := Vec3.add b.velocity (Vec3.smul (1 / b.mass) impulse) }
      else b
    let correction := Vec3.smul (c.penetration * 0.2) c.normal
    let a2 := if 0 < a.mass
      then { a1 with position := Vec3.sub a1.position (Vec3.smul (b.mass / (a.mass + b.mass)) correction) }
      else a1
    let b2 := if 0 < b.mass
      then { b1 with position := Vec3.add b1.position (Vec3.smul (a.mass / (a.mass + b.mass)) correction) }
      else b1
    (a2, b2)

/-- One pair of `solveConstraints`: the pair's references are re-read from the
body map (mutations by earlier pairs are visible) and the results written back. -/
def solvePairStep (bodies : List (String × PhysicsBody)) (p : CollisionPair) :
    List (String × PhysicsBody) :=
  match JsMap.get bodies p.bodyA, JsMap.get bodies p.bodyB with
  | some a, some b =>
      let r := solveContact a b p.contact
      JsMap.set (JsMap.set bodies p.bodyA r.1) p.bodyB r.2
  | _, _ => bodies

/-- Source `solveConstraints`. -/
def solveConstraints (bodies : List (String × PhysicsBody))
    (pairs : List CollisionPair) : List (String × PhysicsBody) :=
  pairs.foldl solvePairStep bodies

/-! ### Integrator and sleep policy -/

/-- Source `integrateVelocities`: gravity then a fixed 1% damping, for every active,
non-sleeping body — there is no mass check here. -/
def integrateVelocities (gravity : Vec3) (dt : ℝ)
    (bodies : List (String × PhysicsBody)) : List (String × PhysicsBody) :=
  bodies.map (fun kb =>
    if !kb.2.isActive || kb.2.isSleeping then kb
    else (kb.1,
      { kb.2 with
        velocity := Vec3.smul 0.99 (Vec3.add kb.2.velocity (Vec3.smul dt gravity))
        angularVelocity := Vec3.smul 0.99 kb.2.angularVelocity }))

/-- Source `updatePositions`: advance position, rotate by the axis-angle quaternion of
the angular velocity. -/
def updatePositions (dt : ℝ) (bodies : List (String × PhysicsBody)) :
    List (String × PhysicsBody) :=
  bodies.map (fun kb =>
    if !kb.2.isActive || kb.2.isSleeping then kb
    else (kb.1,
      { kb.2 with
        position := Vec3.add kb.2.position (Vec3.smul dt kb.2.velocity)
        rotation := kb.2.rotation.mul
          (Quat.ofAxisAngle kb.2.angularVelocity.normalize
            (kb.2.angularVelocity.length * dt)) }))

/-- Source `handleSleeping`: the sleep flag is recomputed every step from the current
velocities. -/
def handleSleeping (enable : Bool) (threshold : ℝ)
    (bodies : List (String × PhysicsBody)) : List (String × PhysicsBody) :=
  if enable then
    bodies.map (fun kb =>
      if !kb.2.isActive then kb
      else (kb.1,
        { kb.2 with isSleeping :=
            if kb.2.velocity.length < threshold ∧ kb.2.angularVelocity.length < threshold
            then true else false }))
  else bodies

/-! ### Stepping -/

/-- One `step(deltaTime)`: broadphase rebuild, collision detection, constraint
solving, velocity integration, position update, sleep evaluation. -/
def step (e : PhysicsEngine) (dt : ℝ) : PhysicsEngine :=
  let pairs := detectedPairs e
  let b1 := solveConstraints e.bodies pairs
  let b2 := integrateVelocities e.gravity dt b1
  let b3 := updatePositions dt b2
  let b4 := handleSleeping e.enableSleeping e.sleepThreshold b3
  { e with bodies := b4, collisionPairs := pairs }

/-! ### Vehicle force model -/

/-- Source `applyEngineForces`: throttle-proportional force along the body's forward
direction, then the speed clamp against `maxSpeed / 3.6`. -/
def applyEngineForces (v : Vehicle) (b : PhysicsBody) (dt : ℝ) : PhysicsBody :=
  let maxForce := v.data.engine.power * 735.5
  let engineForce := maxForce * v.controls.throttle
  let forward := Vec3.applyQuaternion ⟨0, 0, -1⟩ b.rotation
  let force := Vec3.smul engineForce forward
  let v1 := Vec3.add b.velocity (Vec3.smul (dt / b.mass) force)
  let speed := v1.length
  let maxSpeed := v.data.maxSpeed / 3.6
  if maxSpeed < speed then { b with velocity := Vec3.smul maxSpeed v1.normalize }
  else { b with velocity := v1 }

/-- Source `applySuspensionForces`. -/
def applySuspensionForces (v : Vehicle) (b : PhysicsBody) (dt : ℝ) : PhysicsBody :=
  let s := v.data.suspension
  let groundHeight : ℝ := 0
  let suspensionCompression := max 0 (b.position.y - groundHeight - s.rideHeight)
  let springForce := suspensionCompression * s.stiffness * 10000
  let dampingForce := b.velocity.y * s.damping * 1000
  let totalForce := springForce + dampingForce
  { b with velocity :=
      { b.velocity with y := b.velocity.y - totalForce * dt / b.mass } }

/-- Source `applyAerodynamicForces`. -/
def applyAerodynamicForces (v : Vehicle) (b : PhysicsBody) (dt : ℝ) : PhysicsBody :=
  let speed := b.velocity.length
  let dragCoefficient : ℝ := 0.3
  let frontalArea := v.data.dimensions.width * v.data.dimensions.height
  let airDensity : ℝ := 1.225
  let dragForce := 0.5 * dragCoefficient * frontalArea * airDensity * speed * speed
  let dragDirection := b.velocity.normalize.neg
  { b with velocity :=
      Vec3.add b.velocity (Vec3.smul (dragForce * dt / b.mass) dragDirection) }

/-- Source `updateVehiclePhysics`: for every registered vehicle (map order), apply the
three force models to its body and write the resulting transform back into the
vehicle. -/
def updateVehiclePhysics (e : PhysicsEngine) (dt : ℝ) : PhysicsEngine :=
  let res := e.vehicles.foldl
    (fun (st : List (String × PhysicsBody) × List (String × Vehicle)) entry =>
      match JsMap.get st.1 entry.1 with
      | none => st
      | some b =>
          if b.isActive then
            let b1 := applyEngineForces entry.2 b dt
            let b2 := applySuspensionForces entry.2 b1 dt
            let b3 := applyAerodynamicForces entry.2 b2 dt
            let veh := { entry.2 with
              position := b3.position
              rotation := eulerFromQuat b3.rotation
              velocity := b3.velocity }
            (JsMap.set st.1 entry.1 b3, JsMap.set st.2 entry.1 veh)
          else st)
    (e.bodies, e.vehicles)
  { e with bodies := res.1, vehicles := res.2 }

/-- Source `update(deltaTime)`: the fixed-timestep accumulator loop followed by the
vehicle force pass. -/
def update (e : PhysicsEngine) (dt : ℝ) : PhysicsEngine :=
  let acc := e.accumulator + dt
  let r := loopFix e.timestep (fun w => step w e.timestep) e acc
  updateVehiclePhysics { r.1 with accumulator := r.2 } dt

/-- A whole run: a sequence of `update` calls with given frame deltas. -/
def runUpdates (ds : List ℝ) (e : PhysicsEngine) : PhysicsEngine :=
  ds.foldl update e

/-- The bodies as they stand right after the constraint-solve phase of a step
(the moment at which the source has just applied its positional correction). -/
def postSolveBodies (e : PhysicsEngine) : List (String × PhysicsBody) :=
  solveConstraints e.bodies (detectedPairs e)

/-- The penetration of the narrowphase formula, recomputed between two
registered bodies. -/
def penetrationBetween (bodies : List (String × PhysicsBody)) (ka kb : String) : ℝ :=
  match JsMap.get bodies ka, JsMap.get bodies kb with
  | some a, some b =>
      (a.collisionShape.size.length + b.collisionShape.size.length) / 2
        - (Vec3.sub b.position a.position).length
  | _, _ => 0

end PhysicsEngine

/-! ## Concrete sample data used to instantiate the theorems -/

def mat0 : PhysicsMaterial := { friction := 0.5, restitution := 0, density := 1000 }

def mat1 : PhysicsMaterial := { friction := 0.8, restitution := 0, density := 800 }

def shapeX : CollisionShape :=
  { kind := ShapeKind.box, size := ⟨2, 0, 0⟩, offset := Vec3.zero, material := mat0 }

def shapeY : CollisionShape :=
  { kind := ShapeKind.box, size := ⟨2, 0, 0⟩, offset := Vec3.zero, material := mat1 }

/-- A zero-mass ("static geometry") body at `(4,0,0)`. -/
def bodyA8 : PhysicsBody :=
  { id := "a", kind := BodyKind.staticBody, mass := 0, position := ⟨4, 0, 0⟩
    velocity := Vec3.zero, rotation := Quat.identity, angularVelocity := Vec3.zero
    inertia := Vec3.zero, centerOfMass := Vec3.zero, collisionShape := shapeX
    isActive := true, isSleeping := false }

/-- A dynamic body of mass 10 at `(5,0,0)`, overlapping `bodyA8`. -/
def bodyB8 : PhysicsBody :=
  { id := "b", kind := BodyKind.dynamicBody, mass := 10, position := ⟨5, 0, 0⟩
    velocity := Vec3.zero, rotation := Quat.identity, angularVelocity := Vec3.zero
    inertia := Vec3.zero, centerOfMass := Vec3.zero, collisionShape := shapeY
    isActive := true, isSleeping := false }

/-- The contact the narrowphase produces for `bodyA8`/`bodyB8`. -/
def contact8 : ContactPoint :=
  { point := ⟨5, 0, 0⟩, normal := ⟨1, 0, 0⟩, penetration := 1
    friction := 0.5, restitution := 0 }

def pair8 : CollisionPair := { bodyA := "a", bodyB := "b", contact := contact8 }

/-- Engine whose world is the overlapping resting pair `bodyA8`/`bodyB8`
(no gravity: the constant external force is zero). -/
def engC8 : PhysicsEngine :=
  { gravity := Vec3.zero, timestep := 1, accumulator := 0
    bodies := [("a", bodyA8), ("b", bodyB8)], vehicles := []
    collisionPairs := [pair8], enableSleeping := false, sleepThreshold := 0.01 }

/-- A lone zero-mass body at the origin. -/
def bodyS : PhysicsBody :=
  { id := "s", kind := BodyKind.staticBody, mass := 0, position := Vec3.zero
    velocity := Vec3.zero, rotation := Quat.identity, angularVelocity := Vec3.zero
    inertia := Vec3.zero, centerOfMass := Vec3.zero, collisionShape := shapeX
    isActive := true, isSleeping := false }

/-- Engine with gravity `(0,-10,0)` and the single zero-mass body `bodyS`. -/
def engC1 : PhysicsEngine :=
  { gravity := ⟨0, -10, 0⟩, timestep := 1, accumulator := 0
    bodies := [("s", bodyS)], vehicles := []
    collisionPairs := [], enableSleeping := false, sleepThreshold := 0.01 }

def ctrl0 : VehicleControls := { throttle := 0, brake := 0, steering := 0, handbrake := false }

def data0 : VehicleData :=
  { mass := 1000, maxSpeed := 7200
    dimensions := { length := 4, width := 2, height := 1.5 }
    engine := { power := 1, torque := 0, redline := 0 }
    suspension := { stiffness := 0, damping := 0, rideHeight := 0 } }

/-- A sample vehicle. -/
def veh0 : Vehicle :=
  { id := "v", position := Vec3.zero, rotation := Vec3.zero, velocity := Vec3.zero
    data := data0, controls := ctrl0 }

/-- An engine with empty registries. -/
def emptyEngine : PhysicsEngine :=
  { gravity := ⟨0, -10, 0⟩, timestep := 1, accumulator := 0
    bodies := [], vehicles := [], collisionPairs := []
    enableSleeping := false, sleepThreshold := 0.01 }

/-- A vehicle whose caller supplied an out-of-range throttle of 2. -/
def vehC9 : Vehicle :=
  { id := "c9", position := Vec3.zero, rotation := Vec3.zero, velocity := Vec3.zero
    data := data0, controls := { throttle := 2, brake := 0, steering := 0, handbrake := false } }

/-- The body the out-of-range throttle acts on: unit mass, identity rotation. -/
def bodyC9 : PhysicsBody :=
  { id := "c9", kind := BodyKind.vehicle, mass := 1, position := Vec3.zero
    velocity := Vec3.zero, rotation := Quat.identity, angularVelocity := Vec3.zero
    inertia := Vec3.zero, centerOfMass := Vec3.zero, collisionShape := shapeX
    isActive := true, isSleeping := false }

/-- An overlapping resting pair with both masses positive: the A side. -/
def bodyP : PhysicsBody :=
  { id := "p", kind := BodyKind.dynamicBody, mass := 1, position := ⟨0, 0, 0⟩
    velocity := Vec3.zero, rotation := Quat.identity, angularVelocity := Vec3.zero
    inertia := Vec3.zero, centerOfMass := Vec3.zero, collisionShape := shapeX
    isActive := true, isSleeping := false }

/-- An overlapping resting pair with both masses positive: the B side. -/
def bodyQ : PhysicsBody :=
  { id := "q", kind := BodyKind.dynamicBody, mass := 1, position := ⟨1, 0, 0⟩
    velocity := Vec3.zero, rotation := Quat.identity, angularVelocity := Vec3.zero
    inertia := Vec3.zero, centerOfMass := Vec3.zero, collisionShape := shapeY
    isActive := true, isSleeping := false }

/-- The contact the narrowphase produces for `bodyP`/`bodyQ`. -/
def contactPQ : ContactPoint :=
  { point := ⟨1, 0, 0⟩, normal := ⟨1, 0, 0⟩, penetration := 1
    friction := 0.5, restitution := 0 }

/-- A body at rest used as the A side of a separating contact. -/
def bodyA3 : PhysicsBody :=
  { id := "a3", kind := BodyKind.dynamicBody, mass := 10, position := ⟨0, 0, 0⟩
    velocity := Vec3.zero, rotation := Quat.identity, angularVelocity := Vec3.zero
    inertia := Vec3.zero, centerOfMass := Vec3.zero, collisionShape := shapeX
    isActive := true, isSleeping := false }

/-- A body moving away from `bodyA3` along the contact normal. -/
def bodyB3 : PhysicsBody :=
  { id := "b3", kind := BodyKind.dynamicBody, mass := 10, position := ⟨1, 0, 0⟩
    velocity := ⟨1, 0, 0⟩, rotation := Quat.identity, angularVelocity := Vec3.zero
    inertia := Vec3.zero, centerOfMass := Vec3.zero, collisionShape := shapeY
    isActive := true, isSleeping := false }

/-- A contact with normal `(1,0,0)` for the separating pair. -/
def contact3 : ContactPoint :=
  { point := ⟨1, 0, 0⟩, normal := ⟨1, 0, 0⟩, penetration := 1
    friction := 0.5, restitution := 0 }

/-- A vehicle body for the speed-clamp witness. -/
def bodyV7 : PhysicsBody :=
  { id := "v", kind := BodyKind.vehicle, mass := 1000, position := Vec3.zero
    velocity := Vec3.zero, rotation := Quat.identity, angularVelocity := Vec3.zero
    inertia := Vec3.zero, centerOfMass := Vec3.zero, collisionShape := shapeX
    isActive := true, isSleeping := false }

/-! # Theorems -/

/-! ## Basic facts about the vector math and the map model -/

theorem Vec3.ext_iff {a b : Vec3} : a = b ↔ a.x = b.x ∧ a.y = b.y ∧ a.z = b.z := by
  cases a; cases b; simp [Vec3.mk.injEq]

theorem Vec3.dot_nonneg (v : Vec3) : 0 ≤ Vec3.dot v v := by
  have hx := sq_nonneg v.x
  have hy := sq_nonneg v.y
  have hz := sq_nonneg v.z
  simp only [Vec3.dot]; nlinarith

theorem Vec3.length_nonneg (v : Vec3) : 0 ≤ v.length := Real.sqrt_nonneg _

theorem Vec3.length_smul (c : ℝ) (v : Vec3) :
    (Vec3.smul c v).length = |c| * v.length := by
  simp only [Vec3.length, Vec3.smul, Vec3.dot]
  have h : c * v.x * (c * v.x) + c * v.y * (c * v.y) + c * v.z * (c * v.z)
      = c ^ 2 * (v.x * v.x + v.y * v.y + v.z * v.z) := by ring
  rw [h, Real.sqrt_mul (sq_nonneg c), Real.sqrt_sq_eq_abs]

theorem Vec3.length_normalize (v : Vec3) (h : v.length ≠ 0) :
    v.normalize.length = 1 := by
  have hpos : 0 < v.length := lt_of_le_of_ne (Vec3.length_nonneg v) (Ne.symm h)
  rw [Vec3.normalize, if_neg h, Vec3.length_smul, abs_of_pos (by positivity)]
  field_simp

theorem JsMap.get_set_eq {α : Type} (m : List (String × α)) (k : String) (v : α) :
    JsMap.get (JsMap.set m k v) k = some v := by
  induction m with
  | nil => simp [JsMap.get, JsMap.set]
  | cons h t ih =>
      by_cases hk : h.1 = k
      · simp [JsMap.set, JsMap.get, hk]
      · simpa [JsMap.set, JsMap.get, hk] using ih

theorem JsMap.get_set_ne {α : Type} (m : List (String × α)) (k k' : String) (v : α)
    (h : k ≠ k') : JsMap.get (JsMap.set m k v) k' = JsMap.get m k' := by
  induction m with
  | nil => simp [JsMap.get, JsMap.set, h]
  | cons hd t ih =>
      by_cases hk : hd.1 = k
      · have : hd.1 ≠ k' := hk ▸ h
        simp [JsMap.set, JsMap.get, hk, this, h, h.symm]
      · by_cases hk' : hd.1 = k'
        · simp [JsMap.set, JsMap.get, hk, hk', h, h.symm]
        · simp [JsMap.set, JsMap.get, hk, hk', h, h.symm, ih]

theorem JsMap.set_same {α : Type} (m : List (String × α)) (k : String) (v : α)
    (h : JsMap.get m k = some v) : JsMap.set m k v = m := by
  induction m with
  | nil => simp [JsMap.get] at h
  | cons hd t ih =>
      by_cases hk : hd.1 = k
      · rw [JsMap.get, if_pos hk] at h
        cases hd
        simp only at hk
        simp [JsMap.set, hk, ← Option.some_inj.mp h]
      · rw [JsMap.get, if_neg hk] at h
        simp [JsMap.set, hk, ih h]

theorem JsMap.get_del_ne {α : Type} (m : List (String × α)) (k k' : String)
    (h : k ≠ k') : JsMap.get (JsMap.del m k) k' = JsMap.get m k' := by
  induction m with
  | nil => simp [JsMap.del]
  | cons hd t ih =>
      by_cases hk : hd.1 = k
      · have : hd.1 ≠ k' := hk ▸ h
        simp [JsMap.del, JsMap.get, hk, this, h, h.symm, ih]
      · by_cases hk' : hd.1 = k'
        · simp [JsMap.del, JsMap.get, hk, hk', h, h.symm]
        · simp [JsMap.del, JsMap.get, hk, hk', h, h.symm, ih]

theorem JsMap.keys_set {α : Type} (m : List (String × α)) (k : String) (v : α) :
    JsMap.keys (JsMap.set m k v)
      = if k ∈ JsMap.keys m then JsMap.keys m else JsMap.keys m ++ [k] := by
  induction m with
  | nil => simp [JsMap.set, JsMap.keys]
  | cons hd t ih =>
      by_cases hk : hd.1 = k
      · simp [JsMap.set, JsMap.keys, hk]
      · have hne : ¬ k = hd.1 := fun h => hk h.symm
        simp only [JsMap.keys] at ih
        by_cases hmem : k ∈ List.map Prod.fst t
        · simp [JsMap.set, JsMap.keys, hk, hne, hmem, ih, List.mem_cons]
        · simp [JsMap.set, JsMap.keys, hk, hne, hmem, ih, List.mem_cons]

theorem JsMap.nodup_keys_set {α : Type} (m : List (String × α)) (k : String) (v : α)
    (h : (JsMap.keys m).Nodup) : (JsMap.keys (JsMap.set m k v)).Nodup := by
  rw [JsMap.keys_set]
  by_cases hmem : k ∈ JsMap.keys m
  · simpa [hmem] using h
  · simp only [hmem, if_false]
    simpa [List.nodup_append] using ⟨h, hmem⟩

theorem loopFix_spec {α : Type} (ts : ℝ) (f : α → α) (hts : 0 < ts) :
    ∀ n : ℕ, ∀ acc : ℝ, ∀ a : α, 0 ≤ acc → (Int.floor (acc / ts)).toNat = n →
      loopFix ts f a acc = (f^[n] a, acc - n * ts) := by
  intro n
  induction n with
  | zero =>
      intro acc a hacc hn
      have hlt : acc / ts < 1 := by
        by_contra hge
        push_neg at hge
        have : (1 : ℤ) ≤ Int.floor (acc / ts) :=
          Int.le_floor.mpr (by exact_mod_cast hge)
        omega
      have hcond : ¬ (0 < ts ∧ ts ≤ acc) := by
        rintro ⟨-, hle⟩
        have : (1 : ℝ) ≤ acc / ts := (le_div_iff₀ hts).mpr (by linarith)
        linarith
      rw [loopFix, dif_neg hcond]
      simp
  | succ n ih =>
      intro acc a hacc hn
      have hone : (1 : ℝ) ≤ acc / ts := by
        by_contra hlt
        push_neg at hlt
        have h0 : 0 ≤ acc / ts := div_nonneg hacc (le_of_lt hts)
        have : Int.floor (acc / ts) = 0 := by
          rw [Int.floor_eq_zero_iff]
          exact Set.mem_Ico.mpr ⟨h0, hlt⟩
        omega
      have hle : ts ≤ acc := by
        have := (le_div_iff₀ hts).mp hone
        linarith
      have hcond : 0 < ts ∧ ts ≤ acc := ⟨hts, hle⟩
      rw [loopFix, dif_pos hcond]
      have hdiv : (acc - ts) / ts = acc / ts - 1 := by
        rw [sub_div, div_self (ne_of_gt hts)]
      have hfl : Int.floor ((acc - ts) / ts) = Int.floor (acc / ts) - 1 := by
        rw [hdiv, Int.floor_sub_one]
      have hfl1 : (1 : ℤ) ≤ Int.floor (acc / ts) :=
        Int.le_floor.mpr (by exact_mod_cast hone)
      have hsub : (Int.floor ((acc - ts) / ts)).toNat = n := by omega
      have hacc' : 0 ≤ acc - ts := by linarith
      rw [ih (acc - ts) (f a) hacc' hsub]
      rw [Function.iterate_succ_apply, Prod.mk.injEq]
      refine ⟨rfl, ?_⟩
      push_cast
      ring

theorem updateVehiclePhysics_accumulator (e : PhysicsEngine) (dt : ℝ) :
    (PhysicsEngine.updateVehiclePhysics e dt).accumulator = e.accumulator := rfl

theorem updateVehiclePhysics_timestep (e : PhysicsEngine) (dt : ℝ) :
    (PhysicsEngine.updateVehiclePhysics e dt).timestep = e.timestep := rfl

/-! ## C2: the fixed-timestep accumulator -/

/-- Claim C2: for every `update(deltaTime)` call with timestep > 0 (and the
run-invariant facts that the stored accumulator and the frame delta are
nonnegative), the accumulator is first increased by `deltaTime` and then
exactly `floor((oldAccumulator + deltaTime) / timestep)` inner `step(timestep)`
calls run, each decrementing the accumulator by `timestep`; on return the
accumulator equals the remainder, which is `< timestep` and `≥ 0`. -/
theorem update_fixed_timestep (e : PhysicsEngine) (dt : ℝ)
    (hts : 0 < e.timestep) (hacc : 0 ≤ e.accumulator) (hdt : 0 ≤ dt) :
    PhysicsEngine.update e dt =
      PhysicsEngine.updateVehiclePhysics
        { ((fun w => PhysicsEngine.step w e.timestep)^[(Int.floor ((e.accumulator + dt) / e.timestep)).toNat] e) with
          accumulator := e.accumulator + dt
            - (Int.floor ((e.accumulator + dt) / e.timestep)).toNat * e.timestep } dt
    ∧ (PhysicsEngine.update e dt).accumulator
        = e.accumulator + dt
            - (Int.floor ((e.accumulator + dt) / e.timestep)).toNat * e.timestep
    ∧ (PhysicsEngine.update e dt).accumulator < e.timestep
    ∧ 0 ≤ (PhysicsEngine.update e dt).accumulator := by
  have hacc' : 0 ≤ e.accumulator + dt := by linarith
  have hloop := loopFix_spec e.timestep (fun w => PhysicsEngine.step w e.timestep) hts
    ((Int.floor ((e.accumulator + dt) / e.timestep)).toNat) (e.accumulator + dt) e hacc' rfl
  have hkey : PhysicsEngine.update e dt =
      PhysicsEngine.updateVehiclePhysics
        { ((fun w => PhysicsEngine.step w e.timestep)^[(Int.floor ((e.accumulator + dt) / e.timestep)).toNat] e) with
          accumulator := e.accumulator + dt
            - (Int.floor ((e.accumulator + dt) / e.timestep)).toNat * e.timestep } dt := by
    simp only [PhysicsEngine.update, hloop]
  have hfl0 : (0 : ℤ) ≤ Int.floor ((e.accumulator + dt) / e.timestep) :=
    Int.floor_nonneg.mpr (div_nonneg hacc' hts.le)
  have hcast : ((Int.floor ((e.accumulator + dt) / e.timestep)).toNat : ℝ)
      = ((Int.floor ((e.accumulator + dt) / e.timestep) : ℤ) : ℝ) := by
    exact_mod_cast congrArg (fun z : ℤ => (z : ℝ)) (Int.toNat_of_nonneg hfl0)
  have haccv : (PhysicsEngine.update e dt).accumulator
      = e.accumulator + dt
          - (Int.floor ((e.accumulator + dt) / e.timestep)).toNat * e.timestep := by
    rw [hkey, updateVehiclePhysics_accumulator]
  have hupper : (e.accumulator + dt)
      < ((Int.floor ((e.accumulator + dt) / e.timestep) : ℤ) : ℝ) * e.timestep + e.timestep := by
    have h1 : (e.accumulator + dt) / e.timestep
        < ((Int.floor ((e.accumulator + dt) / e.timestep) : ℤ) : ℝ) + 1 :=
      Int.lt_floor_add_one _
    have h2 := (div_lt_iff₀ hts).mp h1
    linarith [h2]
  have hlower : ((Int.floor ((e.accumulator + dt) / e.timestep) : ℤ) : ℝ) * e.timestep
      ≤ e.accumulator + dt := by
    have h1 : ((Int.floor ((e.accumulator + dt) / e.timestep) : ℤ) : ℝ)
        ≤ (e.accumulator + dt) / e.timestep := Int.floor_le _
    have h2 := (le_div_iff₀ hts).mp h1
    linarith [h2]
  refine ⟨hkey, haccv, ?_, ?_⟩
  · rw [haccv, hcast]; linarith
  · rw [haccv, hcast]; linarith

/-- Witness for C2 at a concrete engine and frame delta. -/
theorem update_fixed_timestep_witness :
    (PhysicsEngine.update emptyEngine 3).accumulator < emptyEngine.timestep ∧
    0 ≤ (PhysicsEngine.update emptyEngine 3).accumulator :=
  ⟨(update_fixed_timestep emptyEngine 3 (by norm_num [emptyEngine])
      (by norm_num [emptyEngine]) (by norm_num)).2.2.1,
   (update_fixed_timestep emptyEngine 3 (by norm_num [emptyEngine])
      (by norm_num [emptyEngine]) (by norm_num)).2.2.2⟩

/-! ## C6: determinism -/

/-- Claim C6: two runs from identical initial engine states fed identical
sequences of `update` calls produce identical engine states (hence identical
body positions and velocities); the model is a pure function of its inputs. -/
theorem run_deterministic (e1 e2 : PhysicsEngine) (ds1 ds2 : List ℝ)
    (he : e1 = e2) (hd : ds1 = ds2) :
    PhysicsEngine.runUpdates ds1 e1 = PhysicsEngine.runUpdates ds2 e2 := by
  subst he; subst hd; rfl

/-- Witness for C6. -/
theorem run_deterministic_witness :
    PhysicsEngine.runUpdates [1] emptyEngine = PhysicsEngine.runUpdates [1] emptyEngine :=
  run_deterministic emptyEngine emptyEngine [1] [1] rfl rfl

/-! ## Further evaluation helpers -/

theorem Vec3.length_axis (r : ℝ) (hr : 0 ≤ r) : Vec3.length ⟨r, 0, 0⟩ = r := by
  simp only [Vec3.length, Vec3.dot, mul_zero, add_zero]
  exact Real.sqrt_mul_self hr

theorem Vec3.length_axisZ (r : ℝ) : Vec3.length ⟨0, 0, r⟩ = |r| := by
  simp only [Vec3.length, Vec3.dot, mul_zero, zero_add, zero_mul]
  exact Real.sqrt_mul_self_eq_abs r

theorem Vec3.length_zero : Vec3.length ⟨0, 0, 0⟩ = 0 := by
  simp [Vec3.length, Vec3.dot]

/-! ## C3: the impulse rules of `solveContact` -/

/-- Claim C3: if the relative velocity along the contact normal is positive
(separating), `solveContact` changes nothing; otherwise the impulse is
`normal * (-(1 + restitution) * normalVelocity)`, applied as `-impulse/massA`
to A's velocity only when `massA > 0` and `+impulse/massB` to B's velocity only
when `massB > 0`; in particular a zero-mass body's velocity is never changed. -/
theorem solveContact_rules (a b : PhysicsBody) (c : ContactPoint) :
    (0 < Vec3.dot (Vec3.sub b.velocity a.velocity) c.normal →
       PhysicsEngine.solveContact a b c = (a, b)) ∧
    (¬ 0 < Vec3.dot (Vec3.sub b.velocity a.velocity) c.normal →
       (PhysicsEngine.solveContact a b c).1.velocity =
         (if 0 < a.mass then
            Vec3.sub a.velocity (Vec3.smul (1 / a.mass)
              (Vec3.smul (-(1 + c.restitution)
                * Vec3.dot (Vec3.sub b.velocity a.velocity) c.normal) c.normal))
          else a.velocity) ∧
       (PhysicsEngine.solveContact a b c).2.velocity =
         (if 0 < b.mass then
            Vec3.add b.velocity (Vec3.smul (1 / b.mass)
              (Vec3.smul (-(1 + c.restitution)
                * Vec3.dot (Vec3.sub b.velocity a.velocity) c.normal) c.normal))
          else b.velocity)) ∧
    (a.mass = 0 → (PhysicsEngine.solveContact a b c).1.velocity = a.velocity) ∧
    (b.mass = 0 → (PhysicsEngine.solveContact a b c).2.velocity = b.velocity) := by
  by_cases hnv : 0 < Vec3.dot (Vec3.sub b.velocity a.velocity) c.normal
  · refine ⟨fun _ => by simp [PhysicsEngine.solveContact, hnv], fun h => absurd hnv h,
      fun _ => by simp [PhysicsEngine.solveContact, hnv],
      fun _ => by simp [PhysicsEngine.solveContact, hnv]⟩
  · refine ⟨fun h => absurd h hnv, fun _ => ?_, fun h0 => ?_, fun h0 => ?_⟩
    · constructor
      · simp only [PhysicsEngine.solveContact, if_neg hnv]
        split_ifs <;> simp
      · simp only [PhysicsEngine.solveContact, if_neg hnv]
        split_ifs <;> simp
    · have hm : ¬ 0 < a.mass := by rw [h0]; exact lt_irrefl 0
      simp only [PhysicsEngine.solveContact, if_neg hnv]
      simp [hm]
    · have hm : ¬ 0 < b.mass := by rw [h0]; exact lt_irrefl 0
      simp only [PhysicsEngine.solveContact, if_neg hnv]
      simp [hm]

/-- Witness for C3: a separating pair is left unchanged, and the zero-mass body
of a resting pair keeps its velocity. -/
theorem solveContact_rules_witness :
    PhysicsEngine.solveContact bodyA3 bodyB3 contact3 = (bodyA3, bodyB3) ∧
    (PhysicsEngine.solveContact bodyA8 bodyB8 contact8).1.velocity = bodyA8.velocity :=
  ⟨(solveContact_rules bodyA3 bodyB3 contact3).1
      (by norm_num [Vec3.dot, Vec3.sub, Vec3.zero, bodyA3, bodyB3, contact3]),
   (solveContact_rules bodyA8 bodyB8 contact8).2.2.1 (by norm_num [bodyA8])⟩

/-! ## C4: the narrowphase contact generator -/

/-- Characterization of `generateContact` by the three branches of its
definition (shared helper). -/
theorem generateContact_char (a b : PhysicsBody) :
    ((Vec3.sub b.position a.position).length = 0 →
       PhysicsEngine.generateContact a b = none) ∧
    ((Vec3.sub b.position a.position).length ≠ 0 →
      (a.collisionShape.size.length + b.collisionShape.size.length) / 2
          - (Vec3.sub b.position a.position).length ≤ 0 →
      PhysicsEngine.generateContact a b = none) ∧
    ((Vec3.sub b.position a.position).length ≠ 0 →
      0 < (a.collisionShape.size.length + b.collisionShape.size.length) / 2
          - (Vec3.sub b.position a.position).length →
      PhysicsEngine.generateContact a b = some
        { point := Vec3.add a.position
            (Vec3.smul (a.collisionShape.size.length / 2)
              (Vec3.sub b.position a.position).normalize)
          normal := (Vec3.sub b.position a.position).normalize
          penetration := (a.collisionShape.size.length + b.collisionShape.size.length) / 2
            - (Vec3.sub b.position a.position).length
          friction := min a.collisionShape.material.friction
            b.collisionShape.material.friction
          restitution := min a.collisionShape.material.restitution
            b.collisionShape.material.restitution }) := by
  refine ⟨fun h => ?_, fun h hp => ?_, fun h hp => ?_⟩
  · simp only [PhysicsEngine.generateContact]
    rw [if_pos h]
  · simp only [PhysicsEngine.generateContact]
    rw [if_neg h, if_pos hp]
  · simp only [PhysicsEngine.generateContact]
    rw [if_neg h, if_neg (by linarith : ¬ ((a.collisionShape.size.length
      + b.collisionShape.size.length) / 2 - (Vec3.sub b.position a.position).length ≤ 0))]

/-- Claim C4: `generateContact(a, b)` returns `null` when the two positions
coincide (distance 0) and when the penetration
`(|a.size| + |b.size|)/2 - distance` is not positive; otherwise it returns the
contact with normal `normalize(b.position - a.position)`, that penetration, and
the minimum friction and restitution of the two materials. -/
theorem generateContact_rules (a b : PhysicsBody) :
    ((Vec3.sub b.position a.position).length = 0 →
       PhysicsEngine.generateContact a b = none) ∧
    ((Vec3.sub b.position a.position).length ≠ 0 →
      (a.collisionShape.size.length + b.collisionShape.size.length) / 2
          - (Vec3.sub b.position a.position).length ≤ 0 →
      PhysicsEngine.generateContact a b = none) ∧
    ((Vec3.sub b.position a.position).length ≠ 0 →
      0 < (a.collisionShape.size.length + b.collisionShape.size.length) / 2
          - (Vec3.sub b.position a.position).length →
      PhysicsEngine.generateContact a b = some
        { point := Vec3.add a.position
            (Vec3.smul (a.collisionShape.size.length / 2)
              (Vec3.sub b.position a.position).normalize)
          normal := (Vec3.sub b.position a.position).normalize
          penetration := (a.collisionShape.size.length + b.collisionShape.size.length) / 2
            - (Vec3.sub b.position a.position).length
          friction := min a.collisionShape.material.friction
            b.collisionShape.material.friction
          restitution := min a.collisionShape.material.restitution
            b.collisionShape.material.restitution }) :=
  generateContact_char a b

/-- Witness for C4: coincident positions yield no contact; the overlapping pair
`bodyA8`/`bodyB8` yields exactly `contact8`. -/
theorem generateContact_rules_witness :
    PhysicsEngine.generateContact bodyS bodyS = none ∧
    PhysicsEngine.generateContact bodyA8 bodyB8 = some
      { point := Vec3.add bodyA8.position
          (Vec3.smul (bodyA8.collisionShape.size.length / 2)
            (Vec3.sub bodyB8.position bodyA8.position).normalize)
        normal := (Vec3.sub bodyB8.position bodyA8.position).normalize
        penetration := (bodyA8.collisionShape.size.length
          + bodyB8.collisionShape.size.length) / 2
          - (Vec3.sub bodyB8.position bodyA8.position).length
        friction := min bodyA8.collisionShape.material.friction
          bodyB8.collisionShape.material.friction
        restitution := min bodyA8.collisionShape.material.restitution
          bodyB8.collisionShape.material.restitution } := by
  have hsub : Vec3.sub bodyB8.position bodyA8.position = ⟨1, 0, 0⟩ := by
    simp [Vec3.sub, bodyA8, bodyB8]
    norm_num
  have hd : (Vec3.sub bodyB8.position bodyA8.position).length = 1 := by
    rw [hsub, Vec3.length_axis 1 (by norm_num)]
  have hsa : bodyA8.collisionShape.size.length = 2 := by
    show Vec3.length ⟨2, 0, 0⟩ = 2
    exact Vec3.length_axis 2 (by norm_num)
  have hsb : bodyB8.collisionShape.size.length = 2 := by
    show Vec3.length ⟨2, 0, 0⟩ = 2
    exact Vec3.length_axis 2 (by norm_num)
  refine ⟨(generateContact_rules bodyS bodyS).1 ?_, ?_⟩
  · have : Vec3.sub bodyS.position bodyS.position = ⟨0, 0, 0⟩ := by
      simp [Vec3.sub, bodyS, Vec3.zero]
    rw [this, Vec3.length_zero]
  · exact (generateContact_rules bodyA8 bodyB8).2.2 (by rw [hd]; norm_num)
      (by rw [hd, hsa, hsb]; norm_num)

/-! ## C1: the immovable-body invariant -/

theorem solveContact_fix_a (a b : PhysicsBody) (c : ContactPoint) (h : a.mass = 0) :
    (PhysicsEngine.solveContact a b c).1 = a := by
  have hm : ¬ 0 < a.mass := by rw [h]; exact lt_irrefl 0
  by_cases hnv : 0 < Vec3.dot (Vec3.sub b.velocity a.velocity) c.normal
  · simp [PhysicsEngine.solveContact, hnv]
  · simp [PhysicsEngine.solveContact, hnv, hm]

theorem solveContact_fix_b (a b : PhysicsBody) (c : ContactPoint) (h : b.mass = 0) :
    (PhysicsEngine.solveContact a b c).2 = b := by
  have hm : ¬ 0 < b.mass := by rw [h]; exact lt_irrefl 0
  by_cases hnv : 0 < Vec3.dot (Vec3.sub b.velocity a.velocity) c.normal
  · simp [PhysicsEngine.solveContact, hnv]
  · simp [PhysicsEngine.solveContact, hnv, hm]

/-- Claim C1, corrected: the part of the invariant the code keeps.  The
constraint solver (`solveContact`, over any list of collision pairs) never
alters a zero-mass body in any way — its registry entry is untouched.  (The
integrator does not share this property; see the counterexample.) -/
theorem solver_never_moves_massless (bodies : List (String × PhysicsBody))
    (pairs : List CollisionPair) (k : String) (bd : PhysicsBody)
    (h1 : JsMap.get bodies k = some bd) (h2 : bd.mass = 0) :
    JsMap.get (PhysicsEngine.solveConstraints bodies pairs) k = some bd := by
  induction pairs generalizing bodies with
  | nil => exact h1
  | cons p rest ih =>
      show JsMap.get (PhysicsEngine.solveConstraints
        (PhysicsEngine.solvePairStep bodies p) rest) k = some bd
      apply ih
      unfold PhysicsEngine.solvePairStep
      cases hA : JsMap.get bodies p.bodyA with
      | none => simp only [hA]; exact h1
      | some a =>
        cases hB : JsMap.get bodies p.bodyB with
        | none => simp only [hA, hB]; exact h1
        | some b =>
          simp only [hA, hB]
          by_cases hkb : k = p.bodyB
          · subst hkb
            have hb : b = bd := by
              rw [h1] at hB
              exact (Option.some_inj.mp hB).symm
            subst hb
            rw [JsMap.get_set_eq, solveContact_fix_b a b p.contact h2]
          · rw [JsMap.get_set_ne _ _ _ _ (fun hh => hkb hh.symm)]
            by_cases hka : k = p.bodyA
            · subst hka
              have ha : a = bd := by
                rw [h1] at hA
                exact (Option.some_inj.mp hA).symm
              subst ha
              rw [JsMap.get_set_eq, solveContact_fix_a a b p.contact h2]
            · rw [JsMap.get_set_ne _ _ _ _ (fun hh => hka hh.symm)]
              exact h1

/-- Witness for the corrected C1 at the concrete resting pair. -/
theorem solver_never_moves_massless_witness :
    JsMap.get (PhysicsEngine.solveConstraints engC8.bodies [pair8]) "a" = some bodyA8 :=
  solver_never_moves_massless engC8.bodies [pair8] "a" bodyA8
    (by simp [engC8, JsMap.get]) (by norm_num [bodyA8])

/-- Counterexample to C1 as stated: the integrator is mass-blind.  One `step`
of an engine holding a single zero-mass active body under gravity `(0,-10,0)`
changes both its velocity (gravity plus 1% damping) and its position. -/
theorem c1_counterexample :
    bodyS.mass = 0 ∧
    JsMap.get (PhysicsEngine.step engC1 1).bodies "s"
      = some { bodyS with velocity := ⟨0, -9.9, 0⟩, position := ⟨0, -9.9, 0⟩ } ∧
    (⟨0, -9.9, 0⟩ : Vec3) ≠ bodyS.velocity ∧
    (⟨0, -9.9, 0⟩ : Vec3) ≠ bodyS.position := by
  have hgrid : PhysicsEngine.updateBroadphase engC1.bodies
      = [((0, 0), [("s", bodyS)])] := by
    simp [PhysicsEngine.updateBroadphase, engC1, bodyS, PhysicsEngine.gridAdd,
      PhysicsEngine.cellKey, Vec3.zero]
  have hpairs : PhysicsEngine.detectedPairs engC1 = [] := by
    simp [PhysicsEngine.detectedPairs, hgrid, PhysicsEngine.detectCollisions,
      PhysicsEngine.allPairs]
  refine ⟨rfl, ?_, ?_, ?_⟩
  · simp only [PhysicsEngine.step, hpairs]
    simp [PhysicsEngine.solveConstraints, PhysicsEngine.integrateVelocities,
      PhysicsEngine.updatePositions, PhysicsEngine.handleSleeping,
      engC1, bodyS, Vec3.zero, Vec3.add, Vec3.smul, Vec3.normalize,
      Vec3.length, Vec3.dot, Quat.identity, Quat.mul, Quat.ofAxisAngle,
      JsMap.get, PhysicsBody.mk.injEq, Vec3.mk.injEq, Quat.mk.injEq]
    norm_num
  · simp [bodyS, Vec3.zero, Vec3.mk.injEq]
    norm_num
  · simp [bodyS, Vec3.zero, Vec3.mk.injEq]
    norm_num

/-! ## C5 and C10: vehicle registration and removal -/

theorem JsMap.get_del_eq {α : Type} (m : List (String × α)) (k : String) :
    JsMap.get (JsMap.del m k) k = none := by
  induction m with
  | nil => simp [JsMap.del, JsMap.get]
  | cons hd t ih =>
      by_cases hk : hd.1 = k
      · simp [JsMap.del, hk, ih]
      · simp [JsMap.del, JsMap.get, hk, ih]

theorem createVehiclePhysicsBody_id (v : Vehicle) :
    (PhysicsEngine.createVehiclePhysicsBody v).id = v.id := rfl

theorem wheelId_length (id : String) (i : ℕ) :
    (PhysicsEngine.wheelId id i).length = id.length + 7 + (toString i).length := by
  have h7 : ("_wheel_" : String).length = 7 := by decide
  simp [PhysicsEngine.wheelId, String.length_append, h7]

theorem wheelId_ne_id (id : String) (i : ℕ) (hi : 1 ≤ (toString i).length) :
    PhysicsEngine.wheelId id i ≠ id := by
  intro hh
  have hlen := congrArg String.length hh
  rw [wheelId_length] at hlen
  omega

theorem wheelId_ne_wheelId (id : String) (i j : ℕ) (h : toString i ≠ toString j) :
    PhysicsEngine.wheelId id i ≠ PhysicsEngine.wheelId id j := by
  intro hh
  rw [PhysicsEngine.wheelId, PhysicsEngine.wheelId] at hh
  have hd := congrArg String.data hh
  simp [String.data_append] at hd
  exact h (String.ext hd)

/-- The body map written by `addVehicle`: the main body under the vehicle id,
then the four wheel bodies, each `Map.set` overwriting any previous entry. -/
theorem addVehicle_bodies (e : PhysicsEngine) (v : Vehicle) :
    (PhysicsEngine.addVehicle e v).bodies
      = JsMap.set (JsMap.set (JsMap.set (JsMap.set
          (JsMap.set e.bodies v.id (PhysicsEngine.createVehiclePhysicsBody v))
          (PhysicsEngine.wheelId v.id 0)
          (PhysicsEngine.mkWheelBody v (PhysicsEngine.createVehiclePhysicsBody v) 0
            ((PhysicsEngine.wheelPositions v.data.dimensions).getD 0 Vec3.zero)))
          (PhysicsEngine.wheelId v.id 1)
          (PhysicsEngine.mkWheelBody v (PhysicsEngine.createVehiclePhysicsBody v) 1
            ((PhysicsEngine.wheelPositions v.data.dimensions).getD 1 Vec3.zero)))
          (PhysicsEngine.wheelId v.id 2)
          (PhysicsEngine.mkWheelBody v (PhysicsEngine.createVehiclePhysicsBody v) 2
            ((PhysicsEngine.wheelPositions v.data.dimensions).getD 2 Vec3.zero)))
          (PhysicsEngine.wheelId v.id 3)
          (PhysicsEngine.mkWheelBody v (PhysicsEngine.createVehiclePhysicsBody v) 3
            ((PhysicsEngine.wheelPositions v.data.dimensions).getD 3 Vec3.zero)) := by
  simp only [PhysicsEngine.addVehicle]
  simp only [PhysicsEngine.addVehicleCollisionShapes, PhysicsEngine.wheelPositions,
    createVehiclePhysicsBody_id]
  simp [List.enum, List.enumFrom, List.foldl, List.getD, PhysicsEngine.wheelPositions]

theorem getVehicleId_eq_none (l : List (String × Vehicle)) (v : Vehicle)
    (h : ∀ p ∈ l, p.2 ≠ v) : PhysicsEngine.getVehicleId l v = none := by
  induction l with
  | nil => rfl
  | cons hd t ih =>
      have hne : hd.2 ≠ v := h hd (List.mem_cons_self hd t)
      rw [PhysicsEngine.getVehicleId]
      rw [if_neg hne]
      exact ih (fun p hp => h p (List.mem_cons_of_mem hd hp))

/-- Claim C5, corrected: `removeVehicle` deletes only the entry under the
vehicle's own id from the body registry — the wheel sub-bodies stay registered
(see the counterexample) — and removal is idempotent: a vehicle that is not
registered leaves the engine unchanged and raises no error. -/
theorem removeVehicle_main_only (e : PhysicsEngine) (v : Vehicle) :
    ((∀ p ∈ e.vehicles, p.2 ≠ v) → PhysicsEngine.removeVehicle e v = e) ∧
    (∀ vid, PhysicsEngine.getVehicleId e.vehicles v = some vid →
      (PhysicsEngine.removeVehicle e v).bodies = JsMap.del e.bodies vid ∧
      (PhysicsEngine.removeVehicle e v).vehicles = JsMap.del e.vehicles vid ∧
      (∀ k, k ≠ vid →
        JsMap.get (PhysicsEngine.removeVehicle e v).bodies k = JsMap.get e.bodies k)) := by
  constructor
  · intro h
    have hnone : PhysicsEngine.getVehicleId e.vehicles v = none :=
      getVehicleId_eq_none e.vehicles v h
    simp [PhysicsEngine.removeVehicle, hnone]
  · intro vid hv
    refine ⟨by simp [PhysicsEngine.removeVehicle, hv],
      by simp [PhysicsEngine.removeVehicle, hv], ?_⟩
    intro k hk
    simp only [PhysicsEngine.removeVehicle, hv]
    exact JsMap.get_del_ne _ _ _ (Ne.symm hk)

theorem addVeh_vehicles :
    (PhysicsEngine.addVehicle emptyEngine veh0).vehicles = [(veh0.id, veh0)] := by
  simp [PhysicsEngine.addVehicle, emptyEngine, JsMap.set, createVehiclePhysicsBody_id]

theorem addVeh_getVehicleId :
    PhysicsEngine.getVehicleId (PhysicsEngine.addVehicle emptyEngine veh0).vehicles veh0
      = some veh0.id := by
  rw [addVeh_vehicles]
  simp [PhysicsEngine.getVehicleId]

/-- Witness for the corrected C5: removing an unregistered vehicle is a no-op,
and removing a registered one deletes exactly its own id from the body map. -/
theorem removeVehicle_main_only_witness :
    PhysicsEngine.removeVehicle emptyEngine veh0 = emptyEngine ∧
    (PhysicsEngine.removeVehicle (PhysicsEngine.addVehicle emptyEngine veh0) veh0).bodies
      = JsMap.del (PhysicsEngine.addVehicle emptyEngine veh0).bodies veh0.id :=
  ⟨(removeVehicle_main_only emptyEngine veh0).1 (by simp [emptyEngine]),
   ((removeVehicle_main_only (PhysicsEngine.addVehicle emptyEngine veh0) veh0).2
      veh0.id addVeh_getVehicleId).1⟩

/-- Counterexample to C5 as stated: after registering `veh0` and then removing
it, its first wheel sub-body is still in the body registry (only the main body
entry is gone). -/
theorem c5_counterexample :
    veh0.id = "v" ∧
    (JsMap.get (PhysicsEngine.removeVehicle
        (PhysicsEngine.addVehicle emptyEngine veh0) veh0).bodies
      (PhysicsEngine.wheelId veh0.id 0)).isSome = true ∧
    JsMap.get (PhysicsEngine.removeVehicle
        (PhysicsEngine.addVehicle emptyEngine veh0) veh0).bodies veh0.id = none := by
  have hrm : (PhysicsEngine.removeVehicle
      (PhysicsEngine.addVehicle emptyEngine veh0) veh0).bodies
      = JsMap.del (PhysicsEngine.addVehicle emptyEngine veh0).bodies veh0.id := by
    simp only [PhysicsEngine.removeVehicle, addVeh_getVehicleId]
  refine ⟨rfl, ?_, ?_⟩
  · rw [hrm, JsMap.get_del_ne _ _ _ (Ne.symm (wheelId_ne_id veh0.id 0 (by decide))),
      addVehicle_bodies,
      JsMap.get_set_ne _ _ _ _ (wheelId_ne_wheelId veh0.id 3 0 (by decide)),
      JsMap.get_set_ne _ _ _ _ (wheelId_ne_wheelId veh0.id 2 0 (by decide)),
      JsMap.get_set_ne _ _ _ _ (wheelId_ne_wheelId veh0.id 1 0 (by decide)),
      JsMap.get_set_eq]
    rfl
  · rw [hrm, JsMap.get_del_eq]

/-- Claim C10: `addVehicle` on an already-registered id does not fail and does
not keep the old body: it stores a fresh body built from the vehicle's current
position and rotation with zero velocity and angular velocity, overwriting the
registry entry, and likewise overwrites the four wheel bodies
`id_wheel_0` … `id_wheel_3`; key-uniqueness of the registry is preserved, so it
never holds two bodies for one id. -/
theorem addVehicle_overwrites (e : PhysicsEngine) (v : Vehicle)
    (hnd : (JsMap.keys e.bodies).Nodup) :
    JsMap.get (PhysicsEngine.addVehicle e v).bodies v.id
        = some (PhysicsEngine.createVehiclePhysicsBody v) ∧
    (PhysicsEngine.createVehiclePhysicsBody v).position = v.position ∧
    (PhysicsEngine.createVehiclePhysicsBody v).rotation = Quat.ofEuler v.rotation ∧
    (PhysicsEngine.createVehiclePhysicsBody v).velocity = Vec3.zero ∧
    (PhysicsEngine.createVehiclePhysicsBody v).angularVelocity = Vec3.zero ∧
    (∀ i : ℕ, i < 4 →
      JsMap.get (PhysicsEngine.addVehicle e v).bodies (PhysicsEngine.wheelId v.id i)
        = some (PhysicsEngine.mkWheelBody v (PhysicsEngine.createVehiclePhysicsBody v) i
            ((PhysicsEngine.wheelPositions v.data.dimensions).getD i Vec3.zero))) ∧
    (JsMap.keys (PhysicsEngine.addVehicle e v).bodies).Nodup := by
  refine ⟨?_, rfl, rfl, rfl, rfl, ?_, ?_⟩
  · rw [addVehicle_bodies,
      JsMap.get_set_ne _ _ _ _ (wheelId_ne_id v.id 3 (by decide)),
      JsMap.get_set_ne _ _ _ _ (wheelId_ne_id v.id 2 (by decide)),
      JsMap.get_set_ne _ _ _ _ (wheelId_ne_id v.id 1 (by decide)),
      JsMap.get_set_ne _ _ _ _ (wheelId_ne_id v.id 0 (by decide)),
      JsMap.get_set_eq]
  · intro i hi
    interval_cases i
    · rw [addVehicle_bodies,
        JsMap.get_set_ne _ _ _ _ (wheelId_ne_wheelId v.id 3 0 (by decide)),
        JsMap.get_set_ne _ _ _ _ (wheelId_ne_wheelId v.id 2 0 (by decide)),
        JsMap.get_set_ne _ _ _ _ (wheelId_ne_wheelId v.id 1 0 (by decide)),
        JsMap.get_set_eq]
    · rw [addVehicle_bodies,
        JsMap.get_set_ne _ _ _ _ (wheelId_ne_wheelId v.id 3 1 (by decide)),
        JsMap.get_set_ne _ _ _ _ (wheelId_ne_wheelId v.id 2 1 (by decide)),
        JsMap.get_set_eq]
    · rw [addVehicle_bodies,
        JsMap.get_set_ne _ _ _ _ (wheelId_ne_wheelId v.id 3 2 (by decide)),
        JsMap.get_set_eq]
    · rw [addVehicle_bodies, JsMap.get_set_eq]
  · rw [addVehicle_bodies]
    exact JsMap.nodup_keys_set _ _ _ (JsMap.nodup_keys_set _ _ _
      (JsMap.nodup_keys_set _ _ _ (JsMap.nodup_keys_set _ _ _
        (JsMap.nodup_keys_set _ _ _ hnd))))

/-- Witness for C10 at the empty engine. -/
theorem addVehicle_overwrites_witness :
    JsMap.get (PhysicsEngine.addVehicle emptyEngine veh0).bodies veh0.id
      = some (PhysicsEngine.createVehiclePhysicsBody veh0) :=
  (addVehicle_overwrites emptyEngine veh0 (by simp [emptyEngine, JsMap.keys])).1

/-! ## C9: vehicle control signals -/

/-- Claim C9, corrected: control signals are stored and read back verbatim —
`setControls` merges the supplied values as-is (object spread), `getControls`
returns an exact copy, and no clamping or rejection happens anywhere between
the caller and the force model. -/
theorem controls_not_clamped (cur : VehicleControls) (t br st : ℝ) (hb : Bool) :
    VehicleController.setControls cur
        { throttle := some t, brake := some br, steering := some st, handbrake := some hb }
      = { throttle := t, brake := br, steering := st, handbrake := hb } ∧
    VehicleController.getControls (VehicleController.setControls cur
        { throttle := some t, brake := some br, steering := some st, handbrake := some hb })
      = { throttle := t, brake := br, steering := st, handbrake := hb } ∧
    VehicleController.setControls cur
        { throttle := none, brake := none, steering := none, handbrake := none } = cur :=
  ⟨rfl, rfl, rfl⟩

/-- Counterexample to C9 as stated: a throttle of 2 supplied by the caller is
stored as 2 (outside `[0,1]`) and the force model uses it unclamped — the
engine force applied to a unit-mass body is `2 * 735.5 = 1471`, twice the
full-throttle force. -/
theorem c9_counterexample :
    vehC9.controls.throttle = 2 ∧
    ¬ vehC9.controls.throttle ≤ 1 ∧
    (VehicleController.setControls ctrl0
        { throttle := some 2, brake := none, steering := none, handbrake := none }).throttle
      = 2 ∧
    (PhysicsEngine.applyEngineForces vehC9 bodyC9 1).velocity = ⟨0, 0, -1471⟩ := by
  have habs : |(-1471 : ℝ)| = 1471 := by
    rw [abs_of_nonpos (by norm_num)]
    norm_num
  refine ⟨rfl, by norm_num [vehC9], rfl, ?_⟩
  norm_num [PhysicsEngine.applyEngineForces, vehC9, bodyC9, data0, ctrl0,
    Vec3.applyQuaternion, Vec3.cross, Vec3.smul, Vec3.add, Vec3.zero,
    Quat.identity, Vec3.length_axisZ, habs, Vec3.mk.injEq]

/-! ## C7: the vehicle speed clamp -/

/-- Claim C7: after `applyEngineForces` the body speed never exceeds
`maxSpeed / 3.6` (km/h converted to m/s); when the engine force would push the
speed above that limit, the velocity is rescaled to exactly the limit (never
zeroed); and the bound persists under any number of further applications
(sustained throttle). -/
theorem engine_speed_clamp (v : Vehicle) (b : PhysicsBody) (dt : ℝ)
    (h : 0 ≤ v.data.maxSpeed) :
    (PhysicsEngine.applyEngineForces v b dt).velocity.length ≤ v.data.maxSpeed / 3.6 ∧
    (∀ mid : Vec3,
      mid = Vec3.add b.velocity (Vec3.smul (dt / b.mass)
        (Vec3.smul (v.data.engine.power * 735.5 * v.controls.throttle)
          (Vec3.applyQuaternion ⟨0, 0, -1⟩ b.rotation))) →
      v.data.maxSpeed / 3.6 < mid.length →
      (PhysicsEngine.applyEngineForces v b dt).velocity
          = Vec3.smul (v.data.maxSpeed / 3.6) mid.normalize ∧
      (PhysicsEngine.applyEngineForces v b dt).velocity.length = v.data.maxSpeed / 3.6) ∧
    (∀ n : ℕ, 1 ≤ n →
      ((fun bb => PhysicsEngine.applyEngineForces v bb dt)^[n] b).velocity.length
        ≤ v.data.maxSpeed / 3.6) := by
  have hL : 0 ≤ v.data.maxSpeed / 3.6 := div_nonneg h (by norm_num)
  have hclamp : ∀ bb : PhysicsBody,
      v.data.maxSpeed / 3.6 < (Vec3.add bb.velocity (Vec3.smul (dt / bb.mass)
        (Vec3.smul (v.data.engine.power * 735.5 * v.controls.throttle)
          (Vec3.applyQuaternion ⟨0, 0, -1⟩ bb.rotation)))).length →
      (PhysicsEngine.applyEngineForces v bb dt).velocity
        = Vec3.smul (v.data.maxSpeed / 3.6)
            (Vec3.add bb.velocity (Vec3.smul (dt / bb.mass)
              (Vec3.smul (v.data.engine.power * 735.5 * v.controls.throttle)
                (Vec3.applyQuaternion ⟨0, 0, -1⟩ bb.rotation)))).normalize ∧
      (PhysicsEngine.applyEngineForces v bb dt).velocity.length
        = v.data.maxSpeed / 3.6 := by
    intro bb hc
    have hvel : (PhysicsEngine.applyEngineForces v bb dt).velocity
        = Vec3.smul (v.data.maxSpeed / 3.6)
            (Vec3.add bb.velocity (Vec3.smul (dt / bb.mass)
              (Vec3.smul (v.data.engine.power * 735.5 * v.controls.throttle)
                (Vec3.applyQuaternion ⟨0, 0, -1⟩ bb.rotation)))).normalize := by
      simp only [PhysicsEngine.applyEngineForces]
      rw [if_pos hc]
    have hne : (Vec3.add bb.velocity (Vec3.smul (dt / bb.mass)
        (Vec3.smul (v.data.engine.power * 735.5 * v.controls.throttle)
          (Vec3.applyQuaternion ⟨0, 0, -1⟩ bb.rotation)))).length ≠ 0 := by
      intro h0
      rw [h0] at hc
      linarith
    refine ⟨hvel, ?_⟩
    rw [hvel, Vec3.length_smul, Vec3.length_normalize _ hne, abs_of_nonneg hL, mul_one]
  have hbound : ∀ bb : PhysicsBody,
      (PhysicsEngine.applyEngineForces v bb dt).velocity.length
        ≤ v.data.maxSpeed / 3.6 := by
    intro bb
    by_cases hc : v.data.maxSpeed / 3.6 < (Vec3.add bb.velocity (Vec3.smul (dt / bb.mass)
        (Vec3.smul (v.data.engine.power * 735.5 * v.controls.throttle)
          (Vec3.applyQuaternion ⟨0, 0, -1⟩ bb.rotation)))).length
    · rw [(hclamp bb hc).2]
    · have hvel : (PhysicsEngine.applyEngineForces v bb dt).velocity
          = Vec3.add bb.velocity (Vec3.smul (dt / bb.mass)
              (Vec3.smul (v.data.engine.power * 735.5 * v.controls.throttle)
                (Vec3.applyQuaternion ⟨0, 0, -1⟩ bb.rotation))) := by
        simp only [PhysicsEngine.applyEngineForces]
        rw [if_neg hc]
      rw [hvel]
      exact not_lt.mp hc
  refine ⟨hbound b, ?_, ?_⟩
  · intro mid hmid hgt
    subst hmid
    exact hclamp b hgt
  · intro n hn
    obtain ⟨m, rfl⟩ : ∃ m, n = m + 1 := ⟨n - 1, by omega⟩
    rw [Function.iterate_succ_apply']
    exact hbound _

/-- Witness for C7 at a concrete vehicle and body. -/
theorem engine_speed_clamp_witness :
    (PhysicsEngine.applyEngineForces veh0 bodyV7 1).velocity.length
      ≤ veh0.data.maxSpeed / 3.6 :=
  (engine_speed_clamp veh0 bodyV7 1 (by norm_num [veh0, data0])).1

/-! ## C8: the non-penetration trend of the positional correction -/

/-- What a produced contact tells us about the geometry it came from. -/
theorem generateContact_inv (a b : PhysicsBody) (c : ContactPoint)
    (hc : PhysicsEngine.generateContact a b = some c) :
    (Vec3.sub b.position a.position).length ≠ 0 ∧
    0 < (a.collisionShape.size.length + b.collisionShape.size.length) / 2
        - (Vec3.sub b.position a.position).length ∧
    c.normal = (Vec3.sub b.position a.position).normalize ∧
    c.penetration = (a.collisionShape.size.length + b.collisionShape.size.length) / 2
        - (Vec3.sub b.position a.position).length := by
  by_cases h0 : (Vec3.sub b.position a.position).length = 0
  · rw [(generateContact_char a b).1 h0] at hc
    exact absurd hc (by simp)
  by_cases hp : (a.collisionShape.size.length + b.collisionShape.size.length) / 2
      - (Vec3.sub b.position a.position).length ≤ 0
  · rw [(generateContact_char a b).2.1 h0 hp] at hc
    exact absurd hc (by simp)
  · have hpos := lt_of_not_le hp
    rw [(generateContact_char a b).2.2 h0 hpos] at hc
    have hcv := Option.some_inj.mp hc
    refine ⟨h0, hpos, ?_, ?_⟩
    · rw [← hcv]
    · rw [← hcv]

/-- Claim C8, corrected: the per-solve content of the trend.  For a colliding
pair whose contact comes from `generateContact` and whose masses are both
positive (and that is not separating, so the solver does not early-return),
the penetration recomputed from the corrected positions is exactly
`0.8 * penetration` — strictly smaller.  When one body has zero mass the
correction ships zero displacement (the weight is the *other* body's mass
fraction), and the trend fails: see the counterexample. -/
theorem correction_scales_penetration (a b : PhysicsBody) (c : ContactPoint)
    (hc : PhysicsEngine.generateContact a b = some c)
    (ha : 0 < a.mass) (hb : 0 < b.mass)
    (hnv : ¬ 0 < Vec3.dot (Vec3.sub b.velocity a.velocity) c.normal) :
    (a.collisionShape.size.length + b.collisionShape.size.length) / 2
        - (Vec3.sub (PhysicsEngine.solveContact a b c).2.position
            (PhysicsEngine.solveContact a b c).1.position).length
      = 0.8 * c.penetration ∧
    0.8 * c.penetration < c.penetration := by
  obtain ⟨hd0, hpen, hn, hp⟩ := generateContact_inv a b c hc
  have hd : 0 < (Vec3.sub b.position a.position).length :=
    lt_of_le_of_ne (Vec3.length_nonneg _) (Ne.symm hd0)
  have hcp : 0 < c.penetration := hp ▸ hpen
  have hs : a.mass + b.mass ≠ 0 := by positivity
  have hpos1 : (PhysicsEngine.solveContact a b c).1.position
      = Vec3.sub a.position (Vec3.smul (b.mass / (a.mass + b.mass))
          (Vec3.smul (c.penetration * 0.2) c.normal)) := by
    simp only [PhysicsEngine.solveContact, if_neg hnv]
    simp [ha, hb]
  have hpos2 : (PhysicsEngine.solveContact a b c).2.position
      = Vec3.add b.position (Vec3.smul (a.mass / (a.mass + b.mass))
          (Vec3.smul (c.penetration * 0.2) c.normal)) := by
    simp only [PhysicsEngine.solveContact, if_neg hnv]
    simp [ha, hb]
  have hdiff : Vec3.sub (PhysicsEngine.solveContact a b c).2.position
        (PhysicsEngine.solveContact a b c).1.position
      = Vec3.smul (1 + c.penetration * 0.2 / (Vec3.sub b.position a.position).length)
          (Vec3.sub b.position a.position) := by
    have hstep1 : Vec3.sub (PhysicsEngine.solveContact a b c).2.position
          (PhysicsEngine.solveContact a b c).1.position
        = Vec3.add (Vec3.sub b.position a.position)
            (Vec3.smul (c.penetration * 0.2) c.normal) := by
      rw [hpos1, hpos2]
      apply Vec3.ext_iff.mpr
      refine ⟨?_, ?_, ?_⟩ <;>
        · simp only [Vec3.sub, Vec3.add, Vec3.smul]
          field_simp
          ring
    rw [hstep1, hn, Vec3.normalize, if_neg hd0]
    apply Vec3.ext_iff.mpr
    refine ⟨?_, ?_, ?_⟩ <;>
      · simp only [Vec3.sub, Vec3.add, Vec3.smul]
        ring
  have hlen : (Vec3.sub (PhysicsEngine.solveContact a b c).2.position
        (PhysicsEngine.solveContact a b c).1.position).length
      = (Vec3.sub b.position a.position).length + c.penetration * 0.2 := by
    rw [hdiff, Vec3.length_smul]
    have hk : 0 < 1 + c.penetration * 0.2 / (Vec3.sub b.position a.position).length := by
      positivity
    rw [abs_of_pos hk]
    field_simp
  constructor
  · rw [hlen, hp]
    ring
  · linarith

/-- Witness for the corrected C8 at the concrete positive-mass resting pair. -/
theorem correction_scales_penetration_witness :
    (bodyP.collisionShape.size.length + bodyQ.collisionShape.size.length) / 2
        - (Vec3.sub (PhysicsEngine.solveContact bodyP bodyQ contactPQ).2.position
            (PhysicsEngine.solveContact bodyP bodyQ contactPQ).1.position).length
      = 0.8 * contactPQ.penetration ∧
    0.8 * contactPQ.penetration < contactPQ.penetration := by
  have hsub : Vec3.sub bodyQ.position bodyP.position = ⟨1, 0, 0⟩ := by
    simp [Vec3.sub, bodyP, bodyQ]
  have hd : (Vec3.sub bodyQ.position bodyP.position).length = 1 := by
    rw [hsub, Vec3.length_axis 1 (by norm_num)]
  have hsa : bodyP.collisionShape.size.length = 2 := by
    show Vec3.length ⟨2, 0, 0⟩ = 2
    exact Vec3.length_axis 2 (by norm_num)
  have hsb : bodyQ.collisionShape.size.length = 2 := by
    show Vec3.length ⟨2, 0, 0⟩ = 2
    exact Vec3.length_axis 2 (by norm_num)
  have hnorm : (Vec3.sub bodyQ.position bodyP.position).normalize = ⟨1, 0, 0⟩ := by
    rw [Vec3.normalize, if_neg (by rw [hd]; norm_num), hd, hsub]
    simp [Vec3.smul]
  have hgc : PhysicsEngine.generateContact bodyP bodyQ = some contactPQ := by
    rw [(generateContact_char bodyP bodyQ).2.2 (by rw [hd]; norm_num)
      (by rw [hd, hsa, hsb]; norm_num)]
    simp only [Option.some_inj]
    rw [hnorm, hsa, hsb, hd]
    simp [contactPQ, bodyP, bodyQ, shapeX, shapeY, mat0, mat1, Vec3.add, Vec3.smul,
      Vec3.zero, ContactPoint.mk.injEq, Vec3.mk.injEq, min_def]
    norm_num
  exact correction_scales_penetration bodyP bodyQ contactPQ hgc
    (by norm_num [bodyP]) (by norm_num [bodyQ])
    (by norm_num [Vec3.dot, Vec3.sub, bodyP, bodyQ, contactPQ, Vec3.zero])

theorem engC8_getA : JsMap.get engC8.bodies "a" = some bodyA8 := by
  simp [engC8, JsMap.get]

theorem engC8_getB : JsMap.get engC8.bodies "b" = some bodyB8 := by
  simp [engC8, JsMap.get]

theorem engC8_subAB : Vec3.sub bodyB8.position bodyA8.position = ⟨1, 0, 0⟩ := by
  norm_num [Vec3.sub, bodyA8, bodyB8, Vec3.mk.injEq]

theorem engC8_dAB : (Vec3.sub bodyB8.position bodyA8.position).length = 1 := by
  rw [engC8_subAB, Vec3.length_axis 1 (by norm_num)]

theorem engC8_sizeA : bodyA8.collisionShape.size.length = 2 := by
  show Vec3.length ⟨2, 0, 0⟩ = 2
  exact Vec3.length_axis 2 (by norm_num)

theorem engC8_sizeB : bodyB8.collisionShape.size.length = 2 := by
  show Vec3.length ⟨2, 0, 0⟩ = 2
  exact Vec3.length_axis 2 (by norm_num)

theorem engC8_gc : PhysicsEngine.generateContact bodyA8 bodyB8 = some contact8 := by
  have hnorm : (Vec3.sub bodyB8.position bodyA8.position).normalize = ⟨1, 0, 0⟩ := by
    rw [Vec3.normalize, if_neg (by rw [engC8_dAB]; norm_num), engC8_dAB, engC8_subAB]
    simp [Vec3.smul]
  rw [(generateContact_char bodyA8 bodyB8).2.2 (by rw [engC8_dAB]; norm_num)
    (by rw [engC8_dAB, engC8_sizeA, engC8_sizeB]; norm_num)]
  simp only [Option.some_inj]
  rw [hnorm, engC8_sizeA, engC8_sizeB, engC8_dAB]
  simp [contact8, bodyA8, bodyB8, shapeX, shapeY, mat0, mat1, Vec3.add, Vec3.smul,
    Vec3.zero, ContactPoint.mk.injEq, Vec3.mk.injEq, min_def]
  norm_num

theorem engC8_cc : PhysicsEngine.checkCollision bodyA8 bodyB8 := by
  norm_num [PhysicsEngine.checkCollision, PhysicsEngine.getAABB, bodyA8, bodyB8,
    shapeX, shapeY, Vec3.add, Vec3.sub, Vec3.smul, Vec3.zero]

theorem engC8_cellA : PhysicsEngine.cellKey bodyA8.position = (0, 0) := by
  simp only [PhysicsEngine.cellKey, bodyA8, Prod.mk.injEq]
  constructor <;> · rw [Int.floor_eq_zero_iff]; simp only [Set.mem_Ico]; norm_num

theorem engC8_cellB : PhysicsEngine.cellKey bodyB8.position = (0, 0) := by
  simp only [PhysicsEngine.cellKey, bodyB8, Prod.mk.injEq]
  constructor <;> · rw [Int.floor_eq_zero_iff]; simp only [Set.mem_Ico]; norm_num

theorem engC8_grid : PhysicsEngine.updateBroadphase engC8.bodies
    = [((0, 0), [("a", bodyA8), ("b", bodyB8)])] := by
  have hactA : bodyA8.isActive = true := rfl
  have hactB : bodyB8.isActive = true := rfl
  have hbodies : engC8.bodies = [("a", bodyA8), ("b", bodyB8)] := rfl
  rw [hbodies]
  simp [PhysicsEngine.updateBroadphase, PhysicsEngine.gridAdd, hactA, hactB,
    engC8_cellA, engC8_cellB]

theorem engC8_det : PhysicsEngine.detectedPairs engC8 = [pair8] := by
  rw [PhysicsEngine.detectedPairs, engC8_grid]
  simp [PhysicsEngine.detectCollisions, PhysicsEngine.allPairs, engC8_cc, engC8_gc, pair8]

theorem engC8_sc : PhysicsEngine.solveContact bodyA8 bodyB8 contact8 = (bodyA8, bodyB8) := by
  norm_num [PhysicsEngine.solveContact, bodyA8, bodyB8, contact8, Vec3.dot, Vec3.sub,
    Vec3.add, Vec3.smul, Vec3.zero, shapeX, shapeY, mat0, mat1,
    Prod.ext_iff, PhysicsBody.mk.injEq, Vec3.mk.injEq]

theorem engC8_solve : PhysicsEngine.solveConstraints engC8.bodies [pair8]
    = engC8.bodies := by
  have step1 : JsMap.set engC8.bodies "a" bodyA8 = engC8.bodies :=
    JsMap.set_same _ _ _ engC8_getA
  have step2 : JsMap.set engC8.bodies "b" bodyB8 = engC8.bodies :=
    JsMap.set_same _ _ _ engC8_getB
  simp [PhysicsEngine.solveConstraints, PhysicsEngine.solvePairStep, pair8,
    engC8_getA, engC8_getB, engC8_sc, step1, step2]

theorem engC8_integrate :
    PhysicsEngine.integrateVelocities engC8.gravity 1 engC8.bodies = engC8.bodies := by
  norm_num [PhysicsEngine.integrateVelocities, engC8, bodyA8, bodyB8, shapeX, shapeY,
    mat0, mat1, Vec3.add, Vec3.smul, Vec3.zero, PhysicsBody.mk.injEq, Vec3.mk.injEq]

theorem engC8_positions :
    PhysicsEngine.updatePositions 1 engC8.bodies = engC8.bodies := by
  norm_num [PhysicsEngine.updatePositions, engC8, bodyA8, bodyB8, shapeX, shapeY,
    mat0, mat1, Vec3.add, Vec3.smul, Vec3.zero, Vec3.normalize, Vec3.length_zero,
    Quat.identity, Quat.mul, Quat.ofAxisAngle, Real.cos_zero, Real.sin_zero,
    PhysicsBody.mk.injEq, Vec3.mk.injEq, Quat.mk.injEq]

theorem engC8_sleep :
    PhysicsEngine.handleSleeping engC8.enableSleeping engC8.sleepThreshold engC8.bodies
      = engC8.bodies := by
  rw [show engC8.enableSleeping = false from rfl]
  simp [PhysicsEngine.handleSleeping]

theorem engC8_step : PhysicsEngine.step engC8 1 = engC8 := by
  simp only [PhysicsEngine.step, engC8_det, engC8_solve, engC8_integrate,
    engC8_positions, engC8_sleep]
  rfl

theorem engC8_post : PhysicsEngine.postSolveBodies engC8 = engC8.bodies := by
  simp only [PhysicsEngine.postSolveBodies, engC8_det, engC8_solve]

theorem engC8_pen : PhysicsEngine.penetrationBetween engC8.bodies "a" "b" = 1 := by
  simp only [PhysicsEngine.penetrationBetween, engC8_getA, engC8_getB]
  rw [engC8_sizeA, engC8_sizeB, engC8_dAB]
  norm_num

/-- Counterexample to C8 as stated: the engine `engC8` holds a colliding
restitution-0 pair (a zero-mass obstacle and a resting 10 kg body) under a
constant (zero) external force; the whole engine state is a fixed point of
`step`, so the post-solve penetration is 1 after every step — it neither
strictly decreases nor reaches ≤ 0.  (With a zero-mass participant the
positional correction is weighted by the mass fraction 0/(0+10) = 0, so no
separation ever happens.) -/
theorem c8_counterexample :
    PhysicsEngine.step engC8 1 = engC8 ∧
    PhysicsEngine.detectedPairs engC8 = [pair8] ∧
    contact8.restitution = 0 ∧
    PhysicsEngine.penetrationBetween (PhysicsEngine.postSolveBodies engC8) "a" "b" = 1 ∧
    ¬ PhysicsEngine.penetrationBetween
        (PhysicsEngine.postSolveBodies (PhysicsEngine.step engC8 1)) "a" "b"
      < PhysicsEngine.penetrationBetween (PhysicsEngine.postSolveBodies engC8) "a" "b" ∧
    ¬ PhysicsEngine.penetrationBetween
        (PhysicsEngine.postSolveBodies (PhysicsEngine.step engC8 1)) "a" "b" ≤ 0 := by
  have hpen : PhysicsEngine.penetrationBetween (PhysicsEngine.postSolveBodies engC8) "a" "b"
      = 1 := by rw [engC8_post, engC8_pen]
  refine ⟨engC8_step, engC8_det, rfl, hpen, ?_, ?_⟩
  · rw [engC8_step, hpen]
    norm_num
  · rw [engC8_step, hpen]
    norm_num

end GTL
